import Mathlib

/-!
Verification of the device record codec in `src/libfwupd/fwupd-device.c`.

The C file implements a single record type (`FwupdDevicePrivate`), plain
field accessors, a serializer to a key/value sequence
(`fwupd_device_to_variant_builder`), a deserializer
(`fwupd_device_from_key_value`, `fwupd_device_set_from_variant_iter`,
`fwupd_device_new_from_data`), and a text formatter
(`fwupd_device_to_string`).

Modelling conventions:
* `gchar *` fields that may be NULL become `Option String`;
  `g_strdup NULL = NULL`, so string setters take an `Option String`.
* `guint64` / `guint32` become `Nat`; masking is made explicit at the one
  place the C code computes a bitwise complement (`~flag` on a `guint64`).
* `GPtrArray` of strings becomes `List String`.
* A `GVariant` payload in this file is always a string, a uint64, or a
  uint32, so it becomes a closed sum.  Reading a payload at the wrong type
  is undefined behaviour in the C code (`g_variant_get_*` aborts); the
  model leaves the record unchanged in that case, and no theorem below
  depends on that branch.
* External collaborators that live outside this file (GLib's
  `g_strsplit`, `fwupd_device_flag_to_string`, the date renderer used for
  timestamps, `fwupd_checksum_format_for_display`) are either modelled
  from their documented behaviour or passed in as parameters.
-/

/-- Device record, mirroring `FwupdDevicePrivate` field for field
(`appstream_id` exists in the C struct but has no accessor in this file). -/
structure FwupdDevice where
  id : Option String
  created : Nat
  modified : Nat
  flags : Nat
  appstream_id : Option String
  guids : List String
  name : Option String
  summary : Option String
  description : Option String
  vendor : Option String
  homepage : Option String
  provider : Option String
  version : Option String
  version_lowest : Option String
  version_bootloader : Option String
  checksums : List String
  flashes_left : Nat
deriving DecidableEq, Repr

/-- Wire payload: the only three `GVariant` payload kinds this codec uses. -/
inductive GVariant where
  | str (s : String)
  | u64 (n : Nat)
  | u32 (n : Nat)
deriving DecidableEq, Repr

/-! Result-key constants.

Modelled from the spec: the key-name constants
(`FWUPD_RESULT_KEY_*`) are defined in a header that is not part of this
file; the spec fixes them as "fixed string constants, one per field" and
its id-keyed example fixes the device-name key as `"Name"`.  The remaining
spellings follow the upstream header; the theorems below depend only on
the constants being pairwise distinct, plus the `"Name"` spelling. -/

def FWUPD_RESULT_KEY_GUID : String := "Guid"
def FWUPD_RESULT_KEY_DEVICE_ID : String := "DeviceID"
def FWUPD_RESULT_KEY_DEVICE_NAME : String := "Name"
def FWUPD_RESULT_KEY_DEVICE_VENDOR : String := "Vendor"
def FWUPD_RESULT_KEY_DEVICE_FLAGS : String := "Flags"
def FWUPD_RESULT_KEY_DEVICE_CREATED : String := "Created"
def FWUPD_RESULT_KEY_DEVICE_MODIFIED : String := "Modified"
def FWUPD_RESULT_KEY_DEVICE_DESCRIPTION : String := "Description"
def FWUPD_RESULT_KEY_DEVICE_CHECKSUM : String := "DeviceChecksum"
def FWUPD_RESULT_KEY_DEVICE_PLUGIN : String := "Plugin"
def FWUPD_RESULT_KEY_DEVICE_VERSION : String := "Version"
def FWUPD_RESULT_KEY_DEVICE_VERSION_LOWEST : String := "VersionLowest"
def FWUPD_RESULT_KEY_DEVICE_VERSION_BOOTLOADER : String := "VersionBootloader"
def FWUPD_RESULT_KEY_DEVICE_FLASHES_LEFT : String := "FlashesLeft"

/-- The keys `fwupd_device_from_key_value` recognises, in dispatch order. -/
def fwupd_device_known_keys : List String :=
  [FWUPD_RESULT_KEY_DEVICE_FLAGS, FWUPD_RESULT_KEY_DEVICE_CREATED,
   FWUPD_RESULT_KEY_DEVICE_MODIFIED, FWUPD_RESULT_KEY_GUID,
   FWUPD_RESULT_KEY_DEVICE_NAME, FWUPD_RESULT_KEY_DEVICE_VENDOR,
   FWUPD_RESULT_KEY_DEVICE_DESCRIPTION, FWUPD_RESULT_KEY_DEVICE_CHECKSUM,
   FWUPD_RESULT_KEY_DEVICE_PLUGIN, FWUPD_RESULT_KEY_DEVICE_VERSION,
   FWUPD_RESULT_KEY_DEVICE_VERSION_LOWEST,
   FWUPD_RESULT_KEY_DEVICE_VERSION_BOOTLOADER,
   FWUPD_RESULT_KEY_DEVICE_FLASHES_LEFT]

/-- Mirror of `fwupd_device_new` / `fwupd_device_init`: every pointer NULL,
every integer 0, both arrays empty. -/
def fwupd_device_new : FwupdDevice :=
  { id := none, created := 0, modified := 0, flags := 0, appstream_id := none,
    guids := [], name := none, summary := none, description := none,
    vendor := none, homepage := none, provider := none, version := none,
    version_lowest := none, version_bootloader := none, checksums := [],
    flashes_left := 0 }

/-! Field accessors (`fwupd_device_set_*`, `fwupd_device_add_*`,
`fwupd_device_has_*`).  Getters are the structure projections. -/

def fwupd_device_set_id (d : FwupdDevice) (id : Option String) : FwupdDevice :=
  { d with id := id }

def fwupd_device_set_name (d : FwupdDevice) (name : Option String) : FwupdDevice :=
  { d with name := name }

def fwupd_device_set_summary (d : FwupdDevice) (summary : Option String) : FwupdDevice :=
  { d with summary := summary }

def fwupd_device_set_description (d : FwupdDevice) (description : Option String) : FwupdDevice :=
  { d with description := description }

def fwupd_device_set_vendor (d : FwupdDevice) (vendor : Option String) : FwupdDevice :=
  { d with vendor := vendor }

def fwupd_device_set_provider (d : FwupdDevice) (provider : Option String) : FwupdDevice :=
  { d with provider := provider }

def fwupd_device_set_version (d : FwupdDevice) (version : Option String) : FwupdDevice :=
  { d with version := version }

def fwupd_device_set_version_lowest (d : FwupdDevice) (v : Option String) : FwupdDevice :=
  { d with version_lowest := v }

def fwupd_device_set_version_bootloader (d : FwupdDevice) (v : Option String) : FwupdDevice :=
  { d with version_bootloader := v }

def fwupd_device_set_flashes_left (d : FwupdDevice) (n : Nat) : FwupdDevice :=
  { d with flashes_left := n }

def fwupd_device_set_flags (d : FwupdDevice) (flags : Nat) : FwupdDevice :=
  { d with flags := flags }

def fwupd_device_set_created (d : FwupdDevice) (created : Nat) : FwupdDevice :=
  { d with created := created }

def fwupd_device_set_modified (d : FwupdDevice) (modified : Nat) : FwupdDevice :=
  { d with modified := modified }

/-- All 64 bits set: the value of `~(guint64)0`, used to model the C
complement `~flag` on a 64-bit flag word. -/
def guint64_mask : Nat := 2 ^ 64 - 1

def fwupd_device_add_flag (d : FwupdDevice) (flag : Nat) : FwupdDevice :=
  { d with flags := d.flags ||| flag }

def fwupd_device_remove_flag (d : FwupdDevice) (flag : Nat) : FwupdDevice :=
  { d with flags := d.flags &&& (guint64_mask ^^^ flag) }

def fwupd_device_has_flag (d : FwupdDevice) (flag : Nat) : Bool :=
  decide (0 < d.flags &&& flag)

/-- Linear scan with `g_strcmp0`, i.e. exact string membership. -/
def fwupd_device_has_guid (d : FwupdDevice) (guid : String) : Bool :=
  d.guids.contains guid

def fwupd_device_add_guid (d : FwupdDevice) (guid : String) : FwupdDevice :=
  if fwupd_device_has_guid d guid then d
  else { d with guids := d.guids ++ [guid] }

/-- `fwupd_device_add_checksum` runs its own duplicate scan before
appending; the early `return` on a match is the `then` branch here. -/
def fwupd_device_add_checksum (d : FwupdDevice) (checksum : String) : FwupdDevice :=
  if d.checksums.contains checksum then d
  else { d with checksums := d.checksums ++ [checksum] }

/-! Serializer. -/

/-- The final `g_string_truncate (str, str->len - 1)` guarded by
`str->len > 0`: drop the last character of a non-empty buffer. -/
def gstring_truncate_last (s : String) : String :=
  if s.data = [] then s else ⟨s.data.dropLast⟩

/-- The join loop used for `guids` and `checksums`: append every element
followed by `","`, then truncate the trailing separator when the
accumulated string is non-empty. -/
def gstring_join_comma (xs : List String) : String :=
  gstring_truncate_last (xs.foldl (fun acc v => acc ++ v ++ ",") "")

/-- One `g_variant_builder_add` guarded by a NULL check on an optional
string field. -/
def fwupd_variant_str_entry (key : String) : Option String → List (String × GVariant)
  | none => []
  | some s => [(key, GVariant.str s)]

/-- Mirror of `fwupd_device_to_variant_builder`: the ordered key/value
sequence pushed into the builder, one conditional block per field, in
source order. -/
def fwupd_device_to_variant_builder (d : FwupdDevice) : List (String × GVariant) :=
  (if d.guids.length > 0 then
    [(FWUPD_RESULT_KEY_GUID, GVariant.str (gstring_join_comma d.guids))]
   else [])
  ++ fwupd_variant_str_entry FWUPD_RESULT_KEY_DEVICE_NAME d.name
  ++ fwupd_variant_str_entry FWUPD_RESULT_KEY_DEVICE_VENDOR d.vendor
  ++ (if d.flags > 0 then [(FWUPD_RESULT_KEY_DEVICE_FLAGS, GVariant.u64 d.flags)] else [])
  ++ (if d.created > 0 then [(FWUPD_RESULT_KEY_DEVICE_CREATED, GVariant.u64 d.created)] else [])
  ++ (if d.modified > 0 then [(FWUPD_RESULT_KEY_DEVICE_MODIFIED, GVariant.u64 d.modified)] else [])
  ++ fwupd_variant_str_entry FWUPD_RESULT_KEY_DEVICE_DESCRIPTION d.description
  ++ (if d.checksums.length > 0 then
       [(FWUPD_RESULT_KEY_DEVICE_CHECKSUM, GVariant.str (gstring_join_comma d.checksums))]
      else [])
  ++ fwupd_variant_str_entry FWUPD_RESULT_KEY_DEVICE_PLUGIN d.provider
  ++ fwupd_variant_str_entry FWUPD_RESULT_KEY_DEVICE_VERSION d.version
  ++ fwupd_variant_str_entry FWUPD_RESULT_KEY_DEVICE_VERSION_LOWEST d.version_lowest
  ++ fwupd_variant_str_entry FWUPD_RESULT_KEY_DEVICE_VERSION_BOOTLOADER d.version_bootloader
  ++ (if d.flashes_left > 0 then
       [(FWUPD_RESULT_KEY_DEVICE_FLASHES_LEFT, GVariant.u32 d.flashes_left)]
      else [])

/-! Deserializer. -/

/-- Character-level comma split used to model GLib's
`g_strsplit (s, ",", -1)` on a non-empty string. -/
def split_comma_chars : List Char → List (List Char)
  | [] => [[]]
  | c :: cs =>
    match split_comma_chars cs with
    | [] => [[c]]
    | h :: t => if c = ',' then [] :: h :: t else (c :: h) :: t

/-- Modelled from GLib (an external collaborator): `g_strsplit` on `","`;
the documented special case maps the empty string to an empty vector,
otherwise the string is cut at every comma. -/
def g_strsplit_comma (s : String) : List String :=
  if s.data = [] then [] else (split_comma_chars s.data).map (fun l => (⟨l⟩ : String))

/-- Payload reads.  `g_variant_get_string` / `_uint64` / `_uint32` on a
payload of the wrong type abort in C; the model returns `none` and the
dispatcher below leaves the record unchanged on that branch. -/
def GVariant.getString : GVariant → Option String
  | .str s => some s
  | _ => none

def GVariant.getUint64 : GVariant → Option Nat
  | .u64 n => some n
  | _ => none

def GVariant.getUint32 : GVariant → Option Nat
  | .u32 n => some n
  | _ => none

/-- Mirror of `fwupd_device_from_key_value`: a chain of exact key
comparisons in source order; the fall-through for an unrecognised key
does nothing. -/
def fwupd_device_from_key_value (d : FwupdDevice) (key : String) (value : GVariant) : FwupdDevice :=
  if key = FWUPD_RESULT_KEY_DEVICE_FLAGS then
    match value.getUint64 with
    | some n => fwupd_device_set_flags d n
    | none => d
  else if key = FWUPD_RESULT_KEY_DEVICE_CREATED then
    match value.getUint64 with
    | some n => fwupd_device_set_created d n
    | none => d
  else if key = FWUPD_RESULT_KEY_DEVICE_MODIFIED then
    match value.getUint64 with
    | some n => fwupd_device_set_modified d n
    | none => d
  else if key = FWUPD_RESULT_KEY_GUID then
    match value.getString with
    | some s => (g_strsplit_comma s).foldl fwupd_device_add_guid d
    | none => d
  else if key = FWUPD_RESULT_KEY_DEVICE_NAME then
    match value.getString with
    | some s => fwupd_device_set_name d (some s)
    | none => d
  else if key = FWUPD_RESULT_KEY_DEVICE_VENDOR then
    match value.getString with
    | some s => fwupd_device_set_vendor d (some s)
    | none => d
  else if key = FWUPD_RESULT_KEY_DEVICE_DESCRIPTION then
    match value.getString with
    | some s => fwupd_device_set_description d (some s)
    | none => d
  else if key = FWUPD_RESULT_KEY_DEVICE_CHECKSUM then
    match value.getString with
    | some s => (g_strsplit_comma s).foldl fwupd_device_add_checksum d
    | none => d
  else if key = FWUPD_RESULT_KEY_DEVICE_PLUGIN then
    match value.getString with
    | some s => fwupd_device_set_provider d (some s)
    | none => d
  else if key = FWUPD_RESULT_KEY_DEVICE_VERSION then
    match value.getString with
    | some s => fwupd_device_set_version d (some s)
    | none => d
  else if key = FWUPD_RESULT_KEY_DEVICE_VERSION_LOWEST then
    match value.getString with
    | some s => fwupd_device_set_version_lowest d (some s)
    | none => d
  else if key = FWUPD_RESULT_KEY_DEVICE_VERSION_BOOTLOADER then
    match value.getString with
    | some s => fwupd_device_set_version_bootloader d (some s)
    | none => d
  else if key = FWUPD_RESULT_KEY_DEVICE_FLASHES_LEFT then
    match value.getUint32 with
    | some n => fwupd_device_set_flashes_left d n
    | none => d
  else d

/-- Mirror of `fwupd_device_set_from_variant_iter`: dispatch every pair in
order. -/
def fwupd_device_set_from_variant_iter
    (d : FwupdDevice) (ps : List (String × GVariant)) : FwupdDevice :=
  ps.foldl (fun d p => fwupd_device_from_key_value d p.1 p.2) d

/-- Wire envelopes consumed by `fwupd_device_new_from_data`, distinguished
in C by the runtime type string: `"a{sv}"`, `"(a{sv})"`, `"{sa{sv}}"`, or
anything else (`other` carries that unknown type string). -/
inductive GVariantData where
  | dict (ps : List (String × GVariant))
  | tuple1 (ps : List (String × GVariant))
  | idDict (id : String) (ps : List (String × GVariant))
  | other (type_string : String)
deriving DecidableEq, Repr

/-- Mirror of `fwupd_device_new_from_data`, with the `g_warning` side
effect made visible: returns the optional record and whether the
unknown-type diagnostic was emitted. -/
def fwupd_device_new_from_data_logged (data : GVariantData) : Option FwupdDevice × Bool :=
  match data with
  | .tuple1 ps => (some (fwupd_device_set_from_variant_iter fwupd_device_new ps), false)
  | .dict ps => (some (fwupd_device_set_from_variant_iter fwupd_device_new ps), false)
  | .idDict id ps =>
      (some (fwupd_device_set_from_variant_iter
              (fwupd_device_set_id fwupd_device_new (some id)) ps), false)
  | .other _ => (none, true)

def fwupd_device_new_from_data (data : GVariantData) : Option FwupdDevice :=
  (fwupd_device_new_from_data_logged data).1

/-- Mirror of `fwupd_device_to_data`: only the two array-style type
strings are supported. -/
def fwupd_device_to_data (d : FwupdDevice) (type_string : String) : Option GVariantData :=
  if type_string = "a\x7bsv\x7d" then some (.dict (fwupd_device_to_variant_builder d))
  else if type_string = "(a\x7bsv\x7d)" then some (.tuple1 (fwupd_device_to_variant_builder d))
  else none

/-! Formatter (`fwupd_device_to_string` and the `fwupd_pad_kv_*` helpers).

The formatter depends on three collaborators defined outside this file:
the flag-name table `fwupd_device_flag_to_string`, the `%F` date renderer
used by `fwupd_pad_kv_unx`, and `fwupd_checksum_format_for_display`.
They are bundled as an explicit parameter so every theorem about the
formatter holds for an arbitrary vocabulary. -/

structure FwupdExternalFns where
  flag_to_string : Nat → String
  date_format : Nat → String
  checksum_display : String → String

/-- One `fwupd_pad_kv_str` call, as the (key, value) line it emits: NULL
value (or NULL key) emits nothing. -/
def fwupd_pad_kv_str (key : String) : Option String → List (String × String)
  | none => []
  | some v => [(key, v)]

/-- One `fwupd_pad_kv_int` call: zero is ignored, otherwise the decimal
rendering of the value. -/
def fwupd_pad_kv_int (key : String) (value : Nat) : List (String × String) :=
  if value = 0 then [] else [(key, toString value)]

/-- One `fwupd_pad_kv_unx` call: zero is ignored, otherwise the UTC date
rendering of the timestamp. -/
def fwupd_pad_kv_unx (fmt : Nat → String) (key : String) (value : Nat) : List (String × String) :=
  if value = 0 then [] else [(key, fmt value)]

/-- The bit loop inside `fwupd_pad_kv_dfl` after `n` iterations: bits `0`
to `n - 1` have been examined in ascending order, each set bit appending
its flag name and a `"|"` separator. -/
def fwupd_pad_kv_dfl_loop (f : Nat → String) (device_flags : Nat) : Nat → String
  | 0 => ""
  | n + 1 =>
    let acc := fwupd_pad_kv_dfl_loop f device_flags n
    if device_flags &&& (1 <<< n) = 0 then acc else acc ++ f (1 <<< n) ++ "|"

/-- The value `fwupd_pad_kv_dfl` hands to `fwupd_pad_kv_str`: the joined
names with the trailing separator truncated, or the name of flag value 0
when no bit is set. -/
def fwupd_pad_kv_dfl_value (f : Nat → String) (device_flags : Nat) : String :=
  let tmp := fwupd_pad_kv_dfl_loop f device_flags 64
  if tmp.data = [] then f 0 else ⟨tmp.data.dropLast⟩

/-- The ordered (key, value) lines of `fwupd_device_to_string`, one list
element per `fwupd_pad_kv_*` call that prints, in source order.  The
flags line is unconditional because `fwupd_pad_kv_dfl` always hands a
non-NULL `GString` buffer to `fwupd_pad_kv_str`. -/
def fwupd_device_to_string_kvs (env : FwupdExternalFns) (d : FwupdDevice) :
    List (String × String) :=
  (d.guids.map (fun g => (FWUPD_RESULT_KEY_GUID, g)))
  ++ fwupd_pad_kv_str FWUPD_RESULT_KEY_DEVICE_ID d.id
  ++ fwupd_pad_kv_str FWUPD_RESULT_KEY_DEVICE_DESCRIPTION d.description
  ++ fwupd_pad_kv_str FWUPD_RESULT_KEY_DEVICE_PLUGIN d.provider
  ++ [(FWUPD_RESULT_KEY_DEVICE_FLAGS, fwupd_pad_kv_dfl_value env.flag_to_string d.flags)]
  ++ (d.checksums.map (fun c => (FWUPD_RESULT_KEY_DEVICE_CHECKSUM, env.checksum_display c)))
  ++ fwupd_pad_kv_str FWUPD_RESULT_KEY_DEVICE_VENDOR d.vendor
  ++ fwupd_pad_kv_str FWUPD_RESULT_KEY_DEVICE_VERSION d.version
  ++ fwupd_pad_kv_str FWUPD_RESULT_KEY_DEVICE_VERSION_LOWEST d.version_lowest
  ++ fwupd_pad_kv_str FWUPD_RESULT_KEY_DEVICE_VERSION_BOOTLOADER d.version_bootloader
  ++ (if d.flashes_left < 2 then
        fwupd_pad_kv_int FWUPD_RESULT_KEY_DEVICE_FLASHES_LEFT d.flashes_left
      else [])
  ++ fwupd_pad_kv_unx env.date_format FWUPD_RESULT_KEY_DEVICE_CREATED d.created
  ++ fwupd_pad_kv_unx env.date_format FWUPD_RESULT_KEY_DEVICE_MODIFIED d.modified

/-- The text of one line: two leading spaces, the key, a colon, padding
spaces until column 20 past the key start, the value, a newline. -/
def fwupd_pad_kv_render (kv : String × String) : String :=
  "  " ++ kv.1 ++ ": " ++ (⟨List.replicate (20 - kv.1.length) ' '⟩ : String) ++ kv.2 ++ "\n"

/-- Mirror of `fwupd_device_to_string`: the concatenation of all emitted
lines. -/
def fwupd_device_to_string (env : FwupdExternalFns) (d : FwupdDevice) : String :=
  String.join ((fwupd_device_to_string_kvs env d).map fwupd_pad_kv_render)

/-- Modelled from the spec: a sample flag-name vocabulary standing in for
the external `fwupd_device_flag_to_string` table; the spec fixes only
that flag value 0 renders as the "unknown" sentinel name. -/
def fwupd_sample_flag_to_string (v : Nat) : String :=
  if v = 0 then "unknown"
  else if v = 1 then "internal"
  else if v = 8 then "require-ac"
  else "other-flag"

/-- A concrete instantiation of the external formatter collaborators,
used only to evaluate formatter theorems at concrete inputs. -/
def fwupd_sample_external_fns : FwupdExternalFns :=
  { flag_to_string := fwupd_sample_flag_to_string,
    date_format := fun _ => "1970-01-01",
    checksum_display := fun c => "SHA1(" ++ c ++ ")" }

/-! Call sequences over the two list-field adders, for stating dedup
properties of arbitrary interleavings of `fwupd_device_add_guid` and
`fwupd_device_add_checksum`. -/

inductive DeviceAddCall where
  | addGuid (s : String)
  | addChecksum (s : String)
deriving DecidableEq, Repr

/-- Run a sequence of adder calls left to right on a record. -/
def applyDeviceAddCalls (d : FwupdDevice) (cs : List DeviceAddCall) : FwupdDevice :=
  cs.foldl
    (fun d c =>
      match c with
      | .addGuid s => fwupd_device_add_guid d s
      | .addChecksum s => fwupd_device_add_checksum d s)
    d

/-- The arguments of the `add_guid` calls of a sequence, in order. -/
def deviceAddCallGuidArgs (cs : List DeviceAddCall) : List String :=
  cs.filterMap (fun c => match c with | .addGuid s => some s | .addChecksum _ => none)

/-- The arguments of the `add_checksum` calls of a sequence, in order. -/
def deviceAddCallChecksumArgs (cs : List DeviceAddCall) : List String :=
  cs.filterMap (fun c => match c with | .addGuid _ => none | .addChecksum s => some s)

/-- The character sequence of a comma-joined list of chunks. -/
def join_comma_chars : List (List Char) → List Char
  | [] => []
  | [x] => x
  | x :: y :: t => x ++ ',' :: join_comma_chars (y :: t)

/-- The character trail the serializer loop leaves behind the initial
accumulator: every element followed by a comma. -/
def fold_comma_trail : List String → List Char
  | [] => []
  | v :: vs => v.data ++ ',' :: fold_comma_trail vs

/-- One duplicate-checking insertion at the back, the common shape of
`fwupd_device_add_guid` and `fwupd_device_add_checksum`. -/
def fwupd_insert_unique (acc : List String) (s : String) : List String :=
  if acc.contains s then acc else acc ++ [s]

/-- All elements inserted left to right through the duplicate check. -/
def fwupd_insert_all (acc : List String) (xs : List String) : List String :=
  xs.foldl fwupd_insert_unique acc

/-- First-seen-order deduplication, written from the spec sentence "each
distinct value exactly once, in first-seen order"; the refinement target
the adders are compared against. -/
def specFirstSeenDedup : List String → List String
  | [] => []
  | x :: xs => x :: specFirstSeenDedup (xs.filter (fun y => decide (y ≠ x)))
termination_by xs => xs.length
decreasing_by
  simp only [List.length_cons]
  exact Nat.lt_succ_of_le (List.length_filter_le _ _)

/-! Helper lemmas on the comma codec for list fields. -/

theorem split_comma_chars_cons (c : Char) (cs : List Char) :
    split_comma_chars (c :: cs) =
      match split_comma_chars cs with
      | [] => [[c]]
      | h :: t => if c = ',' then [] :: h :: t else (c :: h) :: t := rfl

theorem split_comma_chars_ne_nil (l : List Char) : split_comma_chars l ≠ [] := by
  cases l with
  | nil => simp [split_comma_chars]
  | cons c cs =>
    rw [split_comma_chars_cons]
    rcases hs : split_comma_chars cs with _ | ⟨h, t⟩
    · simp
    · show ¬(if c = ',' then [] :: h :: t else (c :: h) :: t) = []
      split <;> simp

theorem split_comma_chars_no_comma (l : List Char) (h : ',' ∉ l) :
    split_comma_chars l = [l] := by
  induction l with
  | nil => rfl
  | cons c cs ih =>
    have hc : c ≠ ',' := fun e => h (e ▸ List.mem_cons_self c cs)
    have hcs : ',' ∉ cs := fun m => h (List.mem_cons_of_mem _ m)
    rw [split_comma_chars_cons, ih hcs]
    simp [hc]

theorem split_comma_chars_append (x l : List Char) (hx : ',' ∉ x) :
    split_comma_chars (x ++ ',' :: l) = x :: split_comma_chars l := by
  induction x with
  | nil =>
    show split_comma_chars (',' :: l) = [] :: split_comma_chars l
    rw [split_comma_chars_cons]
    rcases hsl : split_comma_chars l with _ | ⟨h, t⟩
    · exact absurd hsl (split_comma_chars_ne_nil l)
    · simp
  | cons c cs ih =>
    have hc : c ≠ ',' := fun e => hx (e ▸ List.mem_cons_self c cs)
    have hcs : ',' ∉ cs := fun m => hx (List.mem_cons_of_mem _ m)
    show split_comma_chars (c :: (cs ++ ',' :: l)) = (c :: cs) :: split_comma_chars l
    rw [split_comma_chars_cons, ih hcs]
    simp [hc]


theorem join_comma_chars_ne_nil (x : List Char) (t : List (List Char)) (hx : x ≠ []) :
    join_comma_chars (x :: t) ≠ [] := by
  cases t with
  | nil => simpa [join_comma_chars] using hx
  | cons y t => cases x with
    | nil => exact absurd rfl hx
    | cons c cs => simp [join_comma_chars]

theorem split_join_comma_chars :
    ∀ ls : List (List Char), ls ≠ [] → (∀ l ∈ ls, ',' ∉ l) →
      split_comma_chars (join_comma_chars ls) = ls
  | [], h, _ => absurd rfl h
  | [x], _, hc => split_comma_chars_no_comma x (hc x (by simp))
  | x :: y :: t, _, hc => by
    rw [show join_comma_chars (x :: y :: t) = x ++ ',' :: join_comma_chars (y :: t) from rfl,
      split_comma_chars_append x _ (hc x (by simp)),
      split_join_comma_chars (y :: t) (by simp) (fun l hl => hc l (List.mem_cons_of_mem _ hl))]


theorem foldl_append_comma_data (xs : List String) (s : String) :
    (xs.foldl (fun acc v => acc ++ v ++ ",") s).data = s.data ++ fold_comma_trail xs := by
  induction xs generalizing s with
  | nil => simp [fold_comma_trail]
  | cons x xs ih =>
    show (xs.foldl (fun acc v => acc ++ v ++ ",") (s ++ x ++ ",")).data = _
    rw [ih]
    simp [fold_comma_trail, String.data_append, List.append_assoc]

theorem fold_comma_trail_eq (x : String) (xs : List String) :
    fold_comma_trail (x :: xs) = join_comma_chars ((x :: xs).map String.data) ++ [','] := by
  induction xs generalizing x with
  | nil => simp [fold_comma_trail, join_comma_chars]
  | cons y ys ih =>
    show x.data ++ ',' :: fold_comma_trail (y :: ys) = _
    rw [ih y]
    simp [join_comma_chars, List.append_assoc]

theorem gstring_truncate_last_data (s : String) :
    (gstring_truncate_last s).data = s.data.dropLast := by
  unfold gstring_truncate_last
  split
  · rename_i h; simp [h]
  · rfl

theorem gstring_join_comma_data (x : String) (xs : List String) :
    (gstring_join_comma (x :: xs)).data = join_comma_chars ((x :: xs).map String.data) := by
  unfold gstring_join_comma
  rw [gstring_truncate_last_data, foldl_append_comma_data, fold_comma_trail_eq]
  simp

/-- Splitting undoes joining for a non-empty list of non-empty, comma-free
elements. -/
theorem g_strsplit_comma_gstring_join (xs : List String)
    (hne : xs ≠ []) (hnem : ∀ x ∈ xs, x.data ≠ []) (hc : ∀ x ∈ xs, ',' ∉ x.data) :
    g_strsplit_comma (gstring_join_comma xs) = xs := by
  obtain ⟨x, t, rfl⟩ : ∃ x t, xs = x :: t := by
    cases xs with
    | nil => exact absurd rfl hne
    | cons x t => exact ⟨x, t, rfl⟩
  unfold g_strsplit_comma
  rw [gstring_join_comma_data]
  rw [if_neg (by
    simpa using join_comma_chars_ne_nil x.data (t.map String.data) (hnem x (by simp)))]
  rw [split_join_comma_chars _ (by simp) (by
    intro l hl
    obtain ⟨v, hv, rfl⟩ := List.mem_map.mp hl
    exact hc v hv)]
  rw [List.map_map]
  have hid : ((fun l => (⟨l⟩ : String)) ∘ String.data) = id := funext fun v => rfl
  rw [hid, List.map_id]

/-! Helper lemmas on duplicate-checking insertion. -/




theorem specFirstSeenDedup_nil : specFirstSeenDedup [] = [] := by
  rw [specFirstSeenDedup]

theorem specFirstSeenDedup_cons (x : String) (xs : List String) :
    specFirstSeenDedup (x :: xs)
      = x :: specFirstSeenDedup (xs.filter (fun y => decide (y ≠ x))) := by
  rw [specFirstSeenDedup]

theorem fwupd_insert_all_eq (xs : List String) :
    ∀ acc, fwupd_insert_all acc xs
      = acc ++ specFirstSeenDedup (xs.filter (fun s => !acc.contains s)) := by
  induction xs with
  | nil => intro acc; simp [fwupd_insert_all, specFirstSeenDedup_nil]
  | cons x xs ih =>
    intro acc
    show fwupd_insert_all (fwupd_insert_unique acc x) xs = _
    by_cases hx : x ∈ acc
    · rw [show fwupd_insert_unique acc x = acc by simp [fwupd_insert_unique, hx]]
      rw [ih acc]
      simp [List.filter_cons, hx]
    · rw [show fwupd_insert_unique acc x = acc ++ [x] by simp [fwupd_insert_unique, hx]]
      rw [ih (acc ++ [x])]
      rw [show (x :: xs).filter (fun s => !acc.contains s)
            = x :: xs.filter (fun s => !acc.contains s) by simp [List.filter_cons, hx]]
      rw [specFirstSeenDedup_cons, List.filter_filter, List.append_assoc,
        List.singleton_append]
      congr 2
      refine congrArg specFirstSeenDedup ?_
      apply List.filter_congr
      intro a _
      by_cases h1 : a ∈ acc <;> by_cases h2 : a = x <;>
        simp [List.contains, h1, h2]

theorem fwupd_insert_all_nil (xs : List String) :
    fwupd_insert_all [] xs = specFirstSeenDedup xs := by
  rw [fwupd_insert_all_eq]
  simp

theorem mem_specFirstSeenDedup (s : String) :
    ∀ xs, s ∈ specFirstSeenDedup xs ↔ s ∈ xs := by
  intro xs
  induction xs using specFirstSeenDedup.induct with
  | case1 => simp [specFirstSeenDedup_nil]
  | case2 x xs ih =>
    rw [specFirstSeenDedup_cons]
    simp only [List.mem_cons, ih, List.mem_filter, decide_eq_true_eq]
    constructor
    · rintro (rfl | ⟨h, _⟩)
      · exact .inl rfl
      · exact .inr h
    · rintro (rfl | h)
      · exact .inl rfl
      · by_cases hx : s = x
        · exact .inl hx
        · exact .inr ⟨h, hx⟩

theorem specFirstSeenDedup_nodup : ∀ xs : List String, (specFirstSeenDedup xs).Nodup := by
  intro xs
  induction xs using specFirstSeenDedup.induct with
  | case1 => simp [specFirstSeenDedup_nil]
  | case2 x xs ih =>
    rw [specFirstSeenDedup_cons]
    refine List.nodup_cons.mpr ⟨?_, ih⟩
    intro hmem
    have := (mem_specFirstSeenDedup x _).mp hmem
    simp at this

theorem specFirstSeenDedup_eq_self :
    ∀ xs : List String, xs.Nodup → specFirstSeenDedup xs = xs := by
  intro xs
  induction xs using specFirstSeenDedup.induct with
  | case1 => intro _; exact specFirstSeenDedup_nil
  | case2 x xs ih =>
    intro hnd
    obtain ⟨hx, hxs⟩ := List.nodup_cons.mp hnd
    have hf : xs.filter (fun y => decide (y ≠ x)) = xs :=
      List.filter_eq_self.mpr (fun a ha => by
        simp only [decide_eq_true_eq]
        exact fun e => hx (e ▸ ha))
    rw [specFirstSeenDedup_cons]
    rw [hf] at ih ⊢
    rw [ih hxs]

/-! Helper lemmas on the device-level adders and the dispatcher. -/

theorem fwupd_device_add_guid_eq (d : FwupdDevice) (g : String) :
    fwupd_device_add_guid d g = { d with guids := fwupd_insert_unique d.guids g } := by
  unfold fwupd_device_add_guid fwupd_device_has_guid fwupd_insert_unique
  split <;> rfl

theorem fwupd_device_add_checksum_eq (d : FwupdDevice) (c : String) :
    fwupd_device_add_checksum d c
      = { d with checksums := fwupd_insert_unique d.checksums c } := by
  unfold fwupd_device_add_checksum fwupd_insert_unique
  split <;> rfl

theorem foldl_add_guid (xs : List String) :
    ∀ d : FwupdDevice,
      xs.foldl fwupd_device_add_guid d = { d with guids := fwupd_insert_all d.guids xs } := by
  induction xs with
  | nil => intro d; rfl
  | cons x xs ih =>
    intro d
    show xs.foldl fwupd_device_add_guid (fwupd_device_add_guid d x) = _
    rw [ih, fwupd_device_add_guid_eq]
    rfl

theorem foldl_add_checksum (xs : List String) :
    ∀ d : FwupdDevice,
      xs.foldl fwupd_device_add_checksum d
        = { d with checksums := fwupd_insert_all d.checksums xs } := by
  induction xs with
  | nil => intro d; rfl
  | cons x xs ih =>
    intro d
    show xs.foldl fwupd_device_add_checksum (fwupd_device_add_checksum d x) = _
    rw [ih, fwupd_device_add_checksum_eq]
    rfl

/-! Defining equations of the dispatcher at each recognised key. -/

theorem from_key_value_flags (d : FwupdDevice) (n : Nat) :
    fwupd_device_from_key_value d FWUPD_RESULT_KEY_DEVICE_FLAGS (.u64 n)
      = { d with flags := n } := rfl

theorem from_key_value_created (d : FwupdDevice) (n : Nat) :
    fwupd_device_from_key_value d FWUPD_RESULT_KEY_DEVICE_CREATED (.u64 n)
      = { d with created := n } := rfl

theorem from_key_value_modified (d : FwupdDevice) (n : Nat) :
    fwupd_device_from_key_value d FWUPD_RESULT_KEY_DEVICE_MODIFIED (.u64 n)
      = { d with modified := n } := rfl

theorem from_key_value_guid (d : FwupdDevice) (s : String) :
    fwupd_device_from_key_value d FWUPD_RESULT_KEY_GUID (.str s)
      = (g_strsplit_comma s).foldl fwupd_device_add_guid d := rfl

theorem from_key_value_name (d : FwupdDevice) (s : String) :
    fwupd_device_from_key_value d FWUPD_RESULT_KEY_DEVICE_NAME (.str s)
      = { d with name := some s } := rfl

theorem from_key_value_vendor (d : FwupdDevice) (s : String) :
    fwupd_device_from_key_value d FWUPD_RESULT_KEY_DEVICE_VENDOR (.str s)
      = { d with vendor := some s } := rfl

theorem from_key_value_description (d : FwupdDevice) (s : String) :
    fwupd_device_from_key_value d FWUPD_RESULT_KEY_DEVICE_DESCRIPTION (.str s)
      = { d with description := some s } := rfl

theorem from_key_value_checksum (d : FwupdDevice) (s : String) :
    fwupd_device_from_key_value d FWUPD_RESULT_KEY_DEVICE_CHECKSUM (.str s)
      = (g_strsplit_comma s).foldl fwupd_device_add_checksum d := rfl

theorem from_key_value_plugin (d : FwupdDevice) (s : String) :
    fwupd_device_from_key_value d FWUPD_RESULT_KEY_DEVICE_PLUGIN (.str s)
      = { d with provider := some s } := rfl

theorem from_key_value_version (d : FwupdDevice) (s : String) :
    fwupd_device_from_key_value d FWUPD_RESULT_KEY_DEVICE_VERSION (.str s)
      = { d with version := some s } := rfl

theorem from_key_value_version_lowest (d : FwupdDevice) (s : String) :
    fwupd_device_from_key_value d FWUPD_RESULT_KEY_DEVICE_VERSION_LOWEST (.str s)
      = { d with version_lowest := some s } := rfl

theorem from_key_value_version_bootloader (d : FwupdDevice) (s : String) :
    fwupd_device_from_key_value d FWUPD_RESULT_KEY_DEVICE_VERSION_BOOTLOADER (.str s)
      = { d with version_bootloader := some s } := rfl

theorem from_key_value_flashes_left (d : FwupdDevice) (n : Nat) :
    fwupd_device_from_key_value d FWUPD_RESULT_KEY_DEVICE_FLASHES_LEFT (.u32 n)
      = { d with flashes_left := n } := rfl

/-- An unrecognised key falls through every comparison and changes
nothing. -/
theorem from_key_value_unknown (d : FwupdDevice) (k : String) (v : GVariant)
    (h : k ∉ fwupd_device_known_keys) :
    fwupd_device_from_key_value d k v = d := by
  simp only [fwupd_device_known_keys, List.mem_cons, List.mem_singleton, not_or,
    List.not_mem_nil] at h
  obtain ⟨h1, h2, h3, h4, h5, h6, h7, h8, h9, h10, h11, h12, h13, -⟩ := h
  simp [fwupd_device_from_key_value, h1, h2, h3, h4, h5, h6, h7, h8, h9, h10, h11, h12, h13]

theorem set_from_variant_iter_nil (d : FwupdDevice) :
    fwupd_device_set_from_variant_iter d [] = d := rfl

theorem set_from_variant_iter_cons (d : FwupdDevice) (p : String × GVariant)
    (ps : List (String × GVariant)) :
    fwupd_device_set_from_variant_iter d (p :: ps)
      = fwupd_device_set_from_variant_iter (fwupd_device_from_key_value d p.1 p.2) ps := rfl

theorem set_from_variant_iter_append (d : FwupdDevice)
    (ps qs : List (String × GVariant)) :
    fwupd_device_set_from_variant_iter d (ps ++ qs)
      = fwupd_device_set_from_variant_iter (fwupd_device_set_from_variant_iter d ps) qs := by
  unfold fwupd_device_set_from_variant_iter
  rw [List.foldl_append]

theorem applyDeviceAddCalls_eq (cs : List DeviceAddCall) :
    ∀ d : FwupdDevice,
      applyDeviceAddCalls d cs
        = { d with guids := fwupd_insert_all d.guids (deviceAddCallGuidArgs cs),
                   checksums := fwupd_insert_all d.checksums (deviceAddCallChecksumArgs cs) } := by
  induction cs with
  | nil => intro d; rfl
  | cons c cs ih =>
    intro d
    cases c with
    | addGuid s =>
      show applyDeviceAddCalls (fwupd_device_add_guid d s) cs = _
      rw [ih, fwupd_device_add_guid_eq]
      rfl
    | addChecksum s =>
      show applyDeviceAddCalls (fwupd_device_add_checksum d s) cs = _
      rw [ih, fwupd_device_add_checksum_eq]
      rfl

/-- C3: any interleaving of `add_guid` / `add_checksum` calls on a fresh
record leaves each list holding exactly the distinct arguments of its
adder, once each, in first-seen order, however many duplicates were
passed. -/
theorem fwupd_device_add_calls_dedup (cs : List DeviceAddCall) :
    (applyDeviceAddCalls fwupd_device_new cs).guids
        = specFirstSeenDedup (deviceAddCallGuidArgs cs)
    ∧ (applyDeviceAddCalls fwupd_device_new cs).checksums
        = specFirstSeenDedup (deviceAddCallChecksumArgs cs)
    ∧ (applyDeviceAddCalls fwupd_device_new cs).guids.Nodup
    ∧ (applyDeviceAddCalls fwupd_device_new cs).checksums.Nodup
    ∧ (∀ s, s ∈ (applyDeviceAddCalls fwupd_device_new cs).guids
        ↔ s ∈ deviceAddCallGuidArgs cs)
    ∧ (∀ s, s ∈ (applyDeviceAddCalls fwupd_device_new cs).checksums
        ↔ s ∈ deviceAddCallChecksumArgs cs)
    ∧ (∀ s, s ∈ deviceAddCallGuidArgs cs →
        (applyDeviceAddCalls fwupd_device_new cs).guids.count s = 1)
    ∧ (∀ s, s ∈ deviceAddCallChecksumArgs cs →
        (applyDeviceAddCalls fwupd_device_new cs).checksums.count s = 1) := by
  have hg : (applyDeviceAddCalls fwupd_device_new cs).guids
      = specFirstSeenDedup (deviceAddCallGuidArgs cs) := by
    rw [applyDeviceAddCalls_eq]
    exact fwupd_insert_all_nil _
  have hc : (applyDeviceAddCalls fwupd_device_new cs).checksums
      = specFirstSeenDedup (deviceAddCallChecksumArgs cs) := by
    rw [applyDeviceAddCalls_eq]
    exact fwupd_insert_all_nil _
  refine ⟨hg, hc, ?_, ?_, ?_, ?_, ?_, ?_⟩
  · rw [hg]; exact specFirstSeenDedup_nodup _
  · rw [hc]; exact specFirstSeenDedup_nodup _
  · intro s; rw [hg]; exact mem_specFirstSeenDedup s _
  · intro s; rw [hc]; exact mem_specFirstSeenDedup s _
  · intro s hs
    rw [hg]
    exact List.count_eq_one_of_mem (specFirstSeenDedup_nodup _)
      ((mem_specFirstSeenDedup s _).mpr hs)
  · intro s hs
    rw [hc]
    exact List.count_eq_one_of_mem (specFirstSeenDedup_nodup _)
      ((mem_specFirstSeenDedup s _).mpr hs)

/-- Witness for C3 at a concrete call sequence with duplicates. -/
theorem fwupd_device_add_calls_dedup_witness :
    (applyDeviceAddCalls fwupd_device_new
        [.addGuid "a", .addChecksum "x", .addGuid "a", .addGuid "b",
         .addChecksum "x"]).guids.count "a" = 1 :=
  (fwupd_device_add_calls_dedup
      [.addGuid "a", .addChecksum "x", .addGuid "a", .addGuid "b",
       .addChecksum "x"]).2.2.2.2.2.2.1 "a" (by decide)

/-- C6: an envelope whose outer type string is none of the three accepted
shapes yields no record, only the unknown-type diagnostic; the caller
receives NULL instead of a hard error. -/
theorem fwupd_device_new_from_data_unknown_shape (ts : String) :
    fwupd_device_new_from_data_logged (.other ts) = (none, true)
    ∧ fwupd_device_new_from_data (.other ts) = none :=
  ⟨rfl, rfl⟩

theorem from_key_value_set_id (d : FwupdDevice) (i : Option String) (k : String)
    (v : GVariant) :
    fwupd_device_from_key_value (fwupd_device_set_id d i) k v
      = fwupd_device_set_id (fwupd_device_from_key_value d k v) i := by
  by_cases hk : k ∈ fwupd_device_known_keys
  · simp only [fwupd_device_known_keys, List.mem_cons, List.not_mem_nil, or_false] at hk
    rcases hk with rfl | rfl | rfl | rfl | rfl | rfl | rfl | rfl | rfl | rfl | rfl | rfl | rfl
    all_goals cases v
    all_goals
      first
        | rfl
        | (rw [from_key_value_guid, from_key_value_guid, foldl_add_guid, foldl_add_guid]
           rfl)
        | (rw [from_key_value_checksum, from_key_value_checksum, foldl_add_checksum,
             foldl_add_checksum]
           rfl)
  · rw [from_key_value_unknown _ _ _ hk, from_key_value_unknown _ _ _ hk]

theorem set_from_variant_iter_set_id (ps : List (String × GVariant)) :
    ∀ (d : FwupdDevice) (i : Option String),
      fwupd_device_set_from_variant_iter (fwupd_device_set_id d i) ps
        = fwupd_device_set_id (fwupd_device_set_from_variant_iter d ps) i := by
  induction ps with
  | nil => intro d i; rfl
  | cons p ps ih =>
    intro d i
    rw [set_from_variant_iter_cons, from_key_value_set_id, ih, set_from_variant_iter_cons]

/-- C4: the id-keyed envelope stores the outer key as the record id and
then processes the inner mapping exactly as the bare-mapping envelope
does; in particular the spec's two-field example deserializes as
stated. -/
theorem fwupd_device_new_from_data_id_envelope :
    (∀ (i : String) (ps : List (String × GVariant)),
        fwupd_device_new_from_data (.idDict i ps)
          = (fwupd_device_new_from_data (.dict ps)).map
              (fun d => fwupd_device_set_id d (some i)))
    ∧ fwupd_device_new_from_data
        (.idDict "dev-1" [(FWUPD_RESULT_KEY_DEVICE_NAME, .str "ColorHug2")])
        = some { fwupd_device_new with id := some "dev-1", name := some "ColorHug2" } := by
  constructor
  · intro i ps
    show some (fwupd_device_set_from_variant_iter
        (fwupd_device_set_id fwupd_device_new (some i)) ps) = _
    rw [set_from_variant_iter_set_id]
    rfl
  · decide

/-- C5: an unrecognised key changes nothing during deserialization (no
error is possible), pairs with unrecognised keys can be filtered away
without changing the result, and the spec's one-known-one-unknown mapping
sets exactly the recognised field. -/
theorem fwupd_device_from_key_value_unknown_ignored :
    (∀ (d : FwupdDevice) (k : String) (v : GVariant),
        k ∉ fwupd_device_known_keys → fwupd_device_from_key_value d k v = d)
    ∧ (∀ (d : FwupdDevice) (ps : List (String × GVariant)),
        fwupd_device_set_from_variant_iter d ps
          = fwupd_device_set_from_variant_iter d
              (ps.filter (fun p => decide (p.1 ∈ fwupd_device_known_keys))))
    ∧ fwupd_device_new_from_data
        (.dict [(FWUPD_RESULT_KEY_DEVICE_NAME, .str "ColorHug2"),
                ("ZZUnknownKey", .str "ignored")])
        = some { fwupd_device_new with name := some "ColorHug2" } := by
  refine ⟨from_key_value_unknown, ?_, by decide⟩
  intro d ps
  induction ps generalizing d with
  | nil => rfl
  | cons p ps ih =>
    rw [set_from_variant_iter_cons]
    by_cases hk : p.1 ∈ fwupd_device_known_keys
    · rw [show (p :: ps).filter (fun q => decide (q.1 ∈ fwupd_device_known_keys))
            = p :: ps.filter (fun q => decide (q.1 ∈ fwupd_device_known_keys)) by
          simp [List.filter_cons, hk]]
      rw [set_from_variant_iter_cons, ih]
    · rw [from_key_value_unknown d p.1 p.2 hk]
      rw [show (p :: ps).filter (fun q => decide (q.1 ∈ fwupd_device_known_keys))
            = ps.filter (fun q => decide (q.1 ∈ fwupd_device_known_keys)) by
          simp [List.filter_cons, hk]]
      exact ih d

/-- Witness for C5: a concrete unknown key is a no-op on a fresh record. -/
theorem fwupd_device_from_key_value_unknown_ignored_witness :
    fwupd_device_from_key_value fwupd_device_new "ZZUnknownKey" (.str "x")
      = fwupd_device_new :=
  fwupd_device_from_key_value_unknown_ignored.1 fwupd_device_new "ZZUnknownKey"
    (.str "x") (by decide)

theorem mem_fst_variant_str_entry {k key : String} {o : Option String}
    (h : k ∈ (fwupd_variant_str_entry key o).map Prod.fst) : k = key := by
  cases o with
  | none => simp [fwupd_variant_str_entry] at h
  | some s => simpa [fwupd_variant_str_entry] using h

theorem mem_fst_if_singleton {k key : String} {c : Prop} [Decidable c] {v : GVariant}
    (h : k ∈ (if c then [(key, v)] else []).map Prod.fst) : k = key := by
  split at h
  · simpa using h
  · simp at h

/-- C9: the serializer reads none of the id, summary and homepage fields,
and every key it can emit is one of the thirteen field keys (the id key
is never among them; summary and homepage have no serialization key at
all). -/
theorem fwupd_device_to_variant_builder_omits_id_summary_homepage :
    (∀ (d : FwupdDevice) (x y z : Option String),
        fwupd_device_to_variant_builder { d with id := x, summary := y, homepage := z }
          = fwupd_device_to_variant_builder d)
    ∧ (∀ (d : FwupdDevice) (k : String),
        k ∈ (fwupd_device_to_variant_builder d).map Prod.fst →
          k ∈ fwupd_device_known_keys)
    ∧ (∀ d : FwupdDevice,
        FWUPD_RESULT_KEY_DEVICE_ID ∉ (fwupd_device_to_variant_builder d).map Prod.fst) := by
  have hsub : ∀ (d : FwupdDevice) (k : String),
      k ∈ (fwupd_device_to_variant_builder d).map Prod.fst →
        k ∈ fwupd_device_known_keys := by
    intro d k hk
    unfold fwupd_device_to_variant_builder at hk
    simp only [List.map_append, List.mem_append, or_assoc] at hk
    rcases hk with h | h | h | h | h | h | h | h | h | h | h | h | h <;>
      first
        | (rw [mem_fst_if_singleton h]; decide)
        | (rw [mem_fst_variant_str_entry h]; decide)
  refine ⟨fun d x y z => rfl, hsub, ?_⟩
  intro d h
  have := hsub d _ h
  revert this
  decide

/-- Witness for C9: the key-subset statement applied to a concrete record
with every serialized field populated. -/
theorem fwupd_device_to_variant_builder_omits_witness :
    FWUPD_RESULT_KEY_GUID ∈ fwupd_device_known_keys :=
  fwupd_device_to_variant_builder_omits_id_summary_homepage.2.1
    { fwupd_device_new with guids := ["g"] } FWUPD_RESULT_KEY_GUID (by decide)

/-- C2 counterexample: the id field is a field of the record with a fixed
key name, yet setting exactly it on a fresh record serializes to the
empty sequence, not to exactly one key-value pair. -/
theorem fwupd_device_single_field_counterexample :
    fwupd_device_to_variant_builder
        (fwupd_device_set_id fwupd_device_new (some "USB:foo")) = []
    ∧ (fwupd_device_to_variant_builder
        (fwupd_device_set_id fwupd_device_new (some "USB:foo"))).length ≠ 1 := by
  decide

theorem gstring_join_comma_singleton (g : String) : gstring_join_comma [g] = g :=
  String.ext (by rw [gstring_join_comma_data]; rfl)

set_option maxHeartbeats 1000000 in
/-- C2 (amended): a fresh record serializes to the empty sequence; setting
exactly one of the thirteen serialized fields (to a non-NULL string, a
non-zero integer, or a first list element) produces exactly the one pair
with that field's key; setting the id or summary field alone still
produces the empty sequence (those fields, like homepage, are never
serialized). -/
theorem fwupd_device_to_variant_builder_single_field :
    fwupd_device_to_variant_builder fwupd_device_new = []
    ∧ (∀ g, fwupd_device_to_variant_builder (fwupd_device_add_guid fwupd_device_new g)
        = [(FWUPD_RESULT_KEY_GUID, .str g)])
    ∧ (∀ s, fwupd_device_to_variant_builder (fwupd_device_set_name fwupd_device_new (some s))
        = [(FWUPD_RESULT_KEY_DEVICE_NAME, .str s)])
    ∧ (∀ s, fwupd_device_to_variant_builder (fwupd_device_set_vendor fwupd_device_new (some s))
        = [(FWUPD_RESULT_KEY_DEVICE_VENDOR, .str s)])
    ∧ (∀ n, 0 < n →
        fwupd_device_to_variant_builder (fwupd_device_set_flags fwupd_device_new n)
          = [(FWUPD_RESULT_KEY_DEVICE_FLAGS, .u64 n)])
    ∧ (∀ n, 0 < n →
        fwupd_device_to_variant_builder (fwupd_device_set_created fwupd_device_new n)
          = [(FWUPD_RESULT_KEY_DEVICE_CREATED, .u64 n)])
    ∧ (∀ n, 0 < n →
        fwupd_device_to_variant_builder (fwupd_device_set_modified fwupd_device_new n)
          = [(FWUPD_RESULT_KEY_DEVICE_MODIFIED, .u64 n)])
    ∧ (∀ s, fwupd_device_to_variant_builder
          (fwupd_device_set_description fwupd_device_new (some s))
        = [(FWUPD_RESULT_KEY_DEVICE_DESCRIPTION, .str s)])
    ∧ (∀ c, fwupd_device_to_variant_builder (fwupd_device_add_checksum fwupd_device_new c)
        = [(FWUPD_RESULT_KEY_DEVICE_CHECKSUM, .str c)])
    ∧ (∀ s, fwupd_device_to_variant_builder
          (fwupd_device_set_provider fwupd_device_new (some s))
        = [(FWUPD_RESULT_KEY_DEVICE_PLUGIN, .str s)])
    ∧ (∀ s, fwupd_device_to_variant_builder
          (fwupd_device_set_version fwupd_device_new (some s))
        = [(FWUPD_RESULT_KEY_DEVICE_VERSION, .str s)])
    ∧ (∀ s, fwupd_device_to_variant_builder
          (fwupd_device_set_version_lowest fwupd_device_new (some s))
        = [(FWUPD_RESULT_KEY_DEVICE_VERSION_LOWEST, .str s)])
    ∧ (∀ s, fwupd_device_to_variant_builder
          (fwupd_device_set_version_bootloader fwupd_device_new (some s))
        = [(FWUPD_RESULT_KEY_DEVICE_VERSION_BOOTLOADER, .str s)])
    ∧ (∀ n, 0 < n →
        fwupd_device_to_variant_builder (fwupd_device_set_flashes_left fwupd_device_new n)
          = [(FWUPD_RESULT_KEY_DEVICE_FLASHES_LEFT, .u32 n)])
    ∧ (∀ i, fwupd_device_to_variant_builder (fwupd_device_set_id fwupd_device_new (some i))
        = [])
    ∧ (∀ s, fwupd_device_to_variant_builder
          (fwupd_device_set_summary fwupd_device_new (some s))
        = []) := by
  refine ⟨rfl, ?_, fun s => rfl, fun s => rfl, ?_, ?_, ?_, fun s => rfl, ?_,
    fun s => rfl, fun s => rfl, fun s => rfl, fun s => rfl, ?_, fun i => rfl,
    fun s => rfl⟩
  · intro g
    rw [show fwupd_device_add_guid fwupd_device_new g
          = { fwupd_device_new with guids := [g] } from rfl]
    simp [fwupd_device_to_variant_builder, fwupd_variant_str_entry, fwupd_device_new,
      gstring_join_comma_singleton]
  · intro n h
    simp [fwupd_device_to_variant_builder, fwupd_device_set_flags, fwupd_device_new,
      fwupd_variant_str_entry, h]
  · intro n h
    simp [fwupd_device_to_variant_builder, fwupd_device_set_created, fwupd_device_new,
      fwupd_variant_str_entry, h]
  · intro n h
    simp [fwupd_device_to_variant_builder, fwupd_device_set_modified, fwupd_device_new,
      fwupd_variant_str_entry, h]
  · intro c
    rw [show fwupd_device_add_checksum fwupd_device_new c
          = { fwupd_device_new with checksums := [c] } from rfl]
    simp [fwupd_device_to_variant_builder, fwupd_variant_str_entry, fwupd_device_new,
      gstring_join_comma_singleton]
  · intro n h
    simp [fwupd_device_to_variant_builder, fwupd_device_set_flashes_left, fwupd_device_new,
      fwupd_variant_str_entry, h]

/-- Witness for C2 at concrete values discharging the non-zero
hypotheses. -/
theorem fwupd_device_to_variant_builder_single_field_witness :
    fwupd_device_to_variant_builder (fwupd_device_set_flags fwupd_device_new 9)
      = [(FWUPD_RESULT_KEY_DEVICE_FLAGS, .u64 9)]
    ∧ fwupd_device_to_variant_builder (fwupd_device_set_flashes_left fwupd_device_new 1)
      = [(FWUPD_RESULT_KEY_DEVICE_FLASHES_LEFT, .u32 1)] :=
  ⟨fwupd_device_to_variant_builder_single_field.2.2.2.2.1 9 (by decide),
   (fwupd_device_to_variant_builder_single_field.2.2.2.2.2.2.2.2.2.2.2.2.2.1) 1 (by decide)⟩

/-- C10: for a single-bit flag, `add_flag` sets that bit and `has_flag`
then holds; bits already set stay set and other bits are untouched;
`remove_flag` clears the bit, leaves every other bit alone, and `has_flag`
then fails; `has_flag` is exactly "the bitwise AND is non-zero". -/
theorem fwupd_device_flag_bit_ops (d : FwupdDevice) (i : Nat)
    (hi : i < 64) (hd : d.flags < 2 ^ 64) :
    fwupd_device_has_flag (fwupd_device_add_flag d (2 ^ i)) (2 ^ i) = true
    ∧ (∀ j, d.flags.testBit j = true →
        (fwupd_device_add_flag d (2 ^ i)).flags.testBit j = true)
    ∧ (∀ j, j ≠ i →
        (fwupd_device_add_flag d (2 ^ i)).flags.testBit j = d.flags.testBit j)
    ∧ fwupd_device_has_flag (fwupd_device_remove_flag d (2 ^ i)) (2 ^ i) = false
    ∧ (∀ j, j ≠ i →
        (fwupd_device_remove_flag d (2 ^ i)).flags.testBit j = d.flags.testBit j)
    ∧ (∀ g, fwupd_device_has_flag d g = true ↔ d.flags &&& g ≠ 0) := by
  have hmask : ∀ j, guint64_mask.testBit j = decide (j < 64) := by
    intro j
    rw [guint64_mask, Nat.testBit_two_pow_sub_one]
  refine ⟨?_, ?_, ?_, ?_, ?_, ?_⟩
  · have hbit : (d.flags ||| 2 ^ i).testBit i = true := by
      rw [Nat.testBit_lor]
      simp [Nat.testBit_two_pow_self]
    simp only [fwupd_device_has_flag, fwupd_device_add_flag, Nat.and_two_pow, hbit,
      Bool.toNat_true, one_mul, decide_eq_true_eq]
    exact Nat.pos_pow_of_pos i (by norm_num)
  · intro j hj
    show (d.flags ||| 2 ^ i).testBit j = true
    rw [Nat.testBit_lor, hj, Bool.true_or]
  · intro j hj
    show (d.flags ||| 2 ^ i).testBit j = d.flags.testBit j
    rw [Nat.testBit_lor, Nat.testBit_two_pow_of_ne (fun e => hj e.symm), Bool.or_false]
  · have hbit : (d.flags &&& (guint64_mask ^^^ 2 ^ i)).testBit i = false := by
      rw [Nat.testBit_land, Nat.testBit_xor, hmask i, Nat.testBit_two_pow_self]
      simp [hi]
    simp only [fwupd_device_has_flag, fwupd_device_remove_flag, Nat.and_two_pow, hbit,
      decide_eq_false_iff_not]
    simp
  · intro j hj
    show (d.flags &&& (guint64_mask ^^^ 2 ^ i)).testBit j = d.flags.testBit j
    rw [Nat.testBit_land, Nat.testBit_xor, hmask j,
      Nat.testBit_two_pow_of_ne (fun e => hj e.symm)]
    by_cases hj64 : j < 64
    · simp [hj64]
    · have hflag : d.flags.testBit j = false :=
        Nat.testBit_lt_two_pow
          (lt_of_lt_of_le hd (Nat.pow_le_pow_right (by norm_num) (le_of_not_lt hj64)))
      simp [hj64, hflag]
  · intro g
    simp [fwupd_device_has_flag, Nat.pos_iff_ne_zero]

/-- Witness for C10 at a concrete record and bit position. -/
theorem fwupd_device_flag_bit_ops_witness :
    fwupd_device_has_flag
        (fwupd_device_add_flag { fwupd_device_new with flags := 5 } (2 ^ 3)) (2 ^ 3) = true
    ∧ fwupd_device_has_flag
        (fwupd_device_remove_flag { fwupd_device_new with flags := 13 } (2 ^ 3)) (2 ^ 3)
      = false :=
  ⟨(fwupd_device_flag_bit_ops { fwupd_device_new with flags := 5 } 3
      (by decide) (by norm_num)).1,
   (fwupd_device_flag_bit_ops { fwupd_device_new with flags := 13 } 3
      (by decide) (by norm_num)).2.2.2.1⟩

theorem from_key_value_guid_join (d : FwupdDevice) (xs : List String)
    (hne : xs ≠ []) (h : ∀ x ∈ xs, x.data ≠ [] ∧ ',' ∉ x.data) (hnd : xs.Nodup)
    (hdg : d.guids = []) :
    fwupd_device_from_key_value d FWUPD_RESULT_KEY_GUID (.str (gstring_join_comma xs))
      = { d with guids := xs } := by
  rw [from_key_value_guid,
    g_strsplit_comma_gstring_join xs hne (fun x hx => (h x hx).1) (fun x hx => (h x hx).2),
    foldl_add_guid, hdg, fwupd_insert_all_nil, specFirstSeenDedup_eq_self xs hnd]

theorem from_key_value_checksum_join (d : FwupdDevice) (xs : List String)
    (hne : xs ≠ []) (h : ∀ x ∈ xs, x.data ≠ [] ∧ ',' ∉ x.data) (hnd : xs.Nodup)
    (hdc : d.checksums = []) :
    fwupd_device_from_key_value d FWUPD_RESULT_KEY_DEVICE_CHECKSUM
        (.str (gstring_join_comma xs))
      = { d with checksums := xs } := by
  rw [from_key_value_checksum,
    g_strsplit_comma_gstring_join xs hne (fun x hx => (h x hx).1) (fun x hx => (h x hx).2),
    foldl_add_checksum, hdc, fwupd_insert_all_nil, specFirstSeenDedup_eq_self xs hnd]

/-- C1 counterexample: a record meeting the claim's stated side conditions
(all optional strings non-NULL, list elements free of commas) whose
round-trip does not reproduce it, because the serializer never emits the
id, summary or homepage fields. -/
theorem fwupd_device_roundtrip_counterexample :
    fwupd_device_set_from_variant_iter fwupd_device_new
        (fwupd_device_to_variant_builder
          { id := some "USB:foo", created := 1, modified := 2, flags := 3,
            appstream_id := none, guids := ["g1", "g2"], name := some "n",
            summary := some "s", description := some "de", vendor := some "v",
            homepage := some "h", provider := some "p", version := some "1.2.3",
            version_lowest := some "1.0.0", version_bootloader := some "0.9",
            checksums := ["c1"], flashes_left := 4 })
      ≠ { id := some "USB:foo", created := 1, modified := 2, flags := 3,
          appstream_id := none, guids := ["g1", "g2"], name := some "n",
          summary := some "s", description := some "de", vendor := some "v",
          homepage := some "h", provider := some "p", version := some "1.2.3",
          version_lowest := some "1.0.0", version_bootloader := some "0.9",
          checksums := ["c1"], flashes_left := 4 } := by
  decide

/-- C1 (amended): the round-trip through the key-value codec reproduces
every record whose never-serialized fields (id, summary, homepage and the
accessor-less appstream_id) are unset, whose remaining optional strings
are non-NULL, and whose list fields are duplicate-free with non-empty,
comma-free elements; in particular every field unset before serialization
is still unset afterwards. -/
theorem fwupd_device_roundtrip (r : FwupdDevice)
    (hid : r.id = none) (hsum : r.summary = none) (hhome : r.homepage = none)
    (happ : r.appstream_id = none)
    (hname : r.name ≠ none) (hvendor : r.vendor ≠ none)
    (hdesc : r.description ≠ none) (hprov : r.provider ≠ none)
    (hver : r.version ≠ none) (hvlow : r.version_lowest ≠ none)
    (hvboot : r.version_bootloader ≠ none)
    (hguids : ∀ g ∈ r.guids, g.data ≠ [] ∧ ',' ∉ g.data) (hgnd : r.guids.Nodup)
    (hchk : ∀ c ∈ r.checksums, c.data ≠ [] ∧ ',' ∉ c.data) (hcnd : r.checksums.Nodup) :
    fwupd_device_set_from_variant_iter fwupd_device_new
        (fwupd_device_to_variant_builder r) = r := by
  obtain ⟨id, cr, mo, fl, ap, gu, na, su, dsc, ve, ho, pr, vsn, vlo, vbo, ck, fla⟩ := r
  simp only at hid hsum hhome happ hname hvendor hdesc hprov hver hvlow hvboot
  simp only at hguids hgnd hchk hcnd
  subst hid; subst hsum; subst hhome; subst happ
  obtain ⟨nm, rfl⟩ := Option.ne_none_iff_exists'.mp hname
  obtain ⟨vd, rfl⟩ := Option.ne_none_iff_exists'.mp hvendor
  obtain ⟨de, rfl⟩ := Option.ne_none_iff_exists'.mp hdesc
  obtain ⟨pv, rfl⟩ := Option.ne_none_iff_exists'.mp hprov
  obtain ⟨vr, rfl⟩ := Option.ne_none_iff_exists'.mp hver
  obtain ⟨vl, rfl⟩ := Option.ne_none_iff_exists'.mp hvlow
  obtain ⟨vb, rfl⟩ := Option.ne_none_iff_exists'.mp hvboot
  have hgu : ∀ (d : FwupdDevice), d.guids = [] → gu ≠ [] →
      fwupd_device_from_key_value d FWUPD_RESULT_KEY_GUID
          (.str (gstring_join_comma gu)) = { d with guids := gu } :=
    fun d hd hne => from_key_value_guid_join d gu hne hguids hgnd hd
  have hck : ∀ (d : FwupdDevice), d.checksums = [] → ck ≠ [] →
      fwupd_device_from_key_value d FWUPD_RESULT_KEY_DEVICE_CHECKSUM
          (.str (gstring_join_comma ck)) = { d with checksums := ck } :=
    fun d hd hne => from_key_value_checksum_join d ck hne hchk hcnd hd
  rcases gu with _ | ⟨g0, gt⟩ <;> rcases ck with _ | ⟨c0, ct⟩ <;>
    rcases Nat.eq_zero_or_pos fl with hfl | hfl <;>
    rcases Nat.eq_zero_or_pos cr with hcr | hcr <;>
    rcases Nat.eq_zero_or_pos mo with hmo | hmo <;>
    rcases Nat.eq_zero_or_pos fla with hfla | hfla <;>
    simp [fwupd_device_to_variant_builder, fwupd_variant_str_entry, fwupd_device_new,
      fwupd_device_set_from_variant_iter, hfl, hcr, hmo, hfla,
      Nat.pos_iff_ne_zero.mp, Nat.not_eq_zero_of_lt,
      from_key_value_name, from_key_value_vendor, from_key_value_flags,
      from_key_value_created, from_key_value_modified, from_key_value_description,
      from_key_value_plugin, from_key_value_version, from_key_value_version_lowest,
      from_key_value_version_bootloader, from_key_value_flashes_left, hgu, hck]

/-! Helper lemmas on the formatter line list. -/

theorem filter_key_pad_str (q k : String) (o : Option String) (h : (k == q) = false) :
    (fwupd_pad_kv_str k o).filter (fun p => p.1 == q) = [] := by
  cases o <;> simp [fwupd_pad_kv_str, h]

theorem filter_key_pad_int (q k : String) (v : Nat) (h : (k == q) = false) :
    (fwupd_pad_kv_int k v).filter (fun p => p.1 == q) = [] := by
  unfold fwupd_pad_kv_int
  split <;> simp [h]

theorem filter_key_pad_unx (fmt : Nat → String) (q k : String) (v : Nat)
    (h : (k == q) = false) :
    (fwupd_pad_kv_unx fmt k v).filter (fun p => p.1 == q) = [] := by
  unfold fwupd_pad_kv_unx
  split <;> simp [h]

theorem filter_key_guid_lines (q : String) (xs : List String)
    (h : (FWUPD_RESULT_KEY_GUID == q) = false) :
    (xs.map (fun g => (FWUPD_RESULT_KEY_GUID, g))).filter (fun p => p.1 == q) = [] := by
  rw [List.filter_eq_nil_iff]
  intro a ha
  obtain ⟨g, -, rfl⟩ := List.mem_map.mp ha
  simp [h]

theorem filter_key_checksum_lines (q : String) (f : String → String) (xs : List String)
    (h : (FWUPD_RESULT_KEY_DEVICE_CHECKSUM == q) = false) :
    (xs.map (fun c => (FWUPD_RESULT_KEY_DEVICE_CHECKSUM, f c))).filter
        (fun p => p.1 == q) = [] := by
  rw [List.filter_eq_nil_iff]
  intro a ha
  obtain ⟨c, -, rfl⟩ := List.mem_map.mp ha
  simp [h]

/-- The formatter always emits exactly one flags line, whatever the flag
word is (a consequence of `fwupd_pad_kv_dfl` handing a non-NULL buffer to
`fwupd_pad_kv_str` even for the zero word). -/
theorem to_string_kvs_filter_flags (env : FwupdExternalFns) (d : FwupdDevice) :
    (fwupd_device_to_string_kvs env d).filter
        (fun p => p.1 == FWUPD_RESULT_KEY_DEVICE_FLAGS)
      = [(FWUPD_RESULT_KEY_DEVICE_FLAGS,
          fwupd_pad_kv_dfl_value env.flag_to_string d.flags)] := by
  unfold fwupd_device_to_string_kvs
  simp only [List.filter_append]
  rw [filter_key_guid_lines _ _ (by decide),
    filter_key_pad_str _ _ _ (by decide),
    filter_key_pad_str _ _ _ (by decide),
    filter_key_pad_str _ _ _ (by decide),
    filter_key_checksum_lines _ _ _ (by decide),
    filter_key_pad_str _ _ _ (by decide),
    filter_key_pad_str _ _ _ (by decide),
    filter_key_pad_str _ _ _ (by decide),
    filter_key_pad_str _ _ _ (by decide),
    filter_key_pad_unx _ _ _ _ (by decide),
    filter_key_pad_unx _ _ _ _ (by decide)]
  have hfla : (if d.flashes_left < 2 then
        fwupd_pad_kv_int FWUPD_RESULT_KEY_DEVICE_FLASHES_LEFT d.flashes_left
      else []).filter (fun p => p.1 == FWUPD_RESULT_KEY_DEVICE_FLAGS) = [] := by
    split
    · exact filter_key_pad_int _ _ _ (by decide)
    · rfl
  rw [hfla]
  simp

/-- The formatter emits a flashes-left line exactly when the counter is
one: the source gate `flashes_left < 2` composed with the zero-suppression
in `fwupd_pad_kv_int`. -/
theorem to_string_kvs_filter_flashes (env : FwupdExternalFns) (d : FwupdDevice) :
    (fwupd_device_to_string_kvs env d).filter
        (fun p => p.1 == FWUPD_RESULT_KEY_DEVICE_FLASHES_LEFT)
      = if d.flashes_left = 1 then
          [(FWUPD_RESULT_KEY_DEVICE_FLASHES_LEFT, "1")]
        else [] := by
  unfold fwupd_device_to_string_kvs
  simp only [List.filter_append]
  rw [filter_key_guid_lines _ _ (by decide),
    filter_key_pad_str _ _ _ (by decide),
    filter_key_pad_str _ _ _ (by decide),
    filter_key_pad_str _ _ _ (by decide),
    filter_key_checksum_lines _ _ _ (by decide),
    filter_key_pad_str _ _ _ (by decide),
    filter_key_pad_str _ _ _ (by decide),
    filter_key_pad_str _ _ _ (by decide),
    filter_key_pad_str _ _ _ (by decide),
    filter_key_pad_unx _ _ _ _ (by decide),
    filter_key_pad_unx _ _ _ _ (by decide)]
  have hmid : ([(FWUPD_RESULT_KEY_DEVICE_FLAGS,
        fwupd_pad_kv_dfl_value env.flag_to_string d.flags)]).filter
      (fun p => p.1 == FWUPD_RESULT_KEY_DEVICE_FLASHES_LEFT) = [] := by
    simp [FWUPD_RESULT_KEY_DEVICE_FLAGS, FWUPD_RESULT_KEY_DEVICE_FLASHES_LEFT]
  rw [hmid]
  by_cases h1 : d.flashes_left = 1
  · simp [h1, fwupd_pad_kv_int]
    rfl
  · by_cases h0 : d.flashes_left = 0
    · simp [h0, h1, fwupd_pad_kv_int]
    · have h2 : ¬ d.flashes_left < 2 := by omega
      simp [h1, h2]

theorem fwupd_pad_kv_dfl_value_bit0_bit3 (f : Nat → String) :
    fwupd_pad_kv_dfl_value f 9 = f 1 ++ "|" ++ f 8 := by
  have hloop : fwupd_pad_kv_dfl_loop f 9 64 = ((("" ++ f 1) ++ "|") ++ f 8) ++ "|" := rfl
  unfold fwupd_pad_kv_dfl_value
  rw [hloop]
  rw [if_neg (by simp [String.data_append])]
  apply String.ext
  simp only [String.data_append]
  rw [show ((("".data ++ (f 1).data) ++ "|".data) ++ (f 8).data) ++ "|".data
        = ((("".data ++ (f 1).data) ++ "|".data) ++ (f 8).data) ++ ['|'] from rfl,
    List.dropLast_concat]
  simp

theorem fwupd_pad_kv_dfl_value_zero (f : Nat → String) :
    fwupd_pad_kv_dfl_value f 0 = f 0 := by
  have hloop : fwupd_pad_kv_dfl_loop f 0 64 = "" := rfl
  unfold fwupd_pad_kv_dfl_value
  rw [hloop]
  rfl

/-- C7 (amended): a record with exactly bits 0 and 3 set formats exactly
one flags line whose value is the two flag names joined by a bar, for any
flag-name vocabulary; but a record with a zero flag word still formats
one flags line, carrying the name of flag value 0, rather than no flags
line. -/
theorem fwupd_device_to_string_flags_line :
    (∀ (env : FwupdExternalFns) (d : FwupdDevice), d.flags = 2 ^ 0 ||| 2 ^ 3 →
        (fwupd_device_to_string_kvs env d).filter
            (fun p => p.1 == FWUPD_RESULT_KEY_DEVICE_FLAGS)
          = [(FWUPD_RESULT_KEY_DEVICE_FLAGS,
              env.flag_to_string (2 ^ 0) ++ "|" ++ env.flag_to_string (2 ^ 3))])
    ∧ (∀ (env : FwupdExternalFns) (d : FwupdDevice), d.flags = 0 →
        (fwupd_device_to_string_kvs env d).filter
            (fun p => p.1 == FWUPD_RESULT_KEY_DEVICE_FLAGS)
          = [(FWUPD_RESULT_KEY_DEVICE_FLAGS, env.flag_to_string 0)]) := by
  constructor
  · intro env d hd
    rw [to_string_kvs_filter_flags, hd]
    rw [show (2 ^ 0 ||| 2 ^ 3 : Nat) = 9 by decide]
    rw [fwupd_pad_kv_dfl_value_bit0_bit3]
    rfl
  · intro env d hd
    rw [to_string_kvs_filter_flags, hd, fwupd_pad_kv_dfl_value_zero]

/-- C7 counterexample: with the spec's zero-flag sentinel vocabulary, a
fresh record (flag word 0) formats a flags line, so the formatted text is
that line rather than containing no flags line. -/
theorem fwupd_device_to_string_flags_zero_counterexample :
    (fwupd_device_to_string_kvs fwupd_sample_external_fns fwupd_device_new).filter
        (fun p => p.1 == FWUPD_RESULT_KEY_DEVICE_FLAGS)
      = [(FWUPD_RESULT_KEY_DEVICE_FLAGS, "unknown")]
    ∧ fwupd_device_to_string fwupd_sample_external_fns fwupd_device_new
      = fwupd_pad_kv_render (FWUPD_RESULT_KEY_DEVICE_FLAGS, "unknown") := by
  constructor
  · decide
  · rfl

/-- Witness for C7 at the sample vocabulary and a concrete record with
bits 0 and 3 set. -/
theorem fwupd_device_to_string_flags_line_witness :
    (fwupd_device_to_string_kvs fwupd_sample_external_fns
        { fwupd_device_new with flags := 2 ^ 0 ||| 2 ^ 3 }).filter
        (fun p => p.1 == FWUPD_RESULT_KEY_DEVICE_FLAGS)
      = [(FWUPD_RESULT_KEY_DEVICE_FLAGS,
          fwupd_sample_external_fns.flag_to_string (2 ^ 0) ++ "|"
            ++ fwupd_sample_external_fns.flag_to_string (2 ^ 3))] :=
  fwupd_device_to_string_flags_line.1 fwupd_sample_external_fns
    { fwupd_device_new with flags := 2 ^ 0 ||| 2 ^ 3 } rfl

/-- C8: the formatted line list carries a flashes-left line exactly when
the counter equals one; zero is suppressed by `fwupd_pad_kv_int` and any
value of two or more by the `flashes_left < 2` gate. -/
theorem fwupd_device_to_string_flashes_left_cutoff
    (env : FwupdExternalFns) (d : FwupdDevice) :
    (∃ v, (FWUPD_RESULT_KEY_DEVICE_FLASHES_LEFT, v)
        ∈ fwupd_device_to_string_kvs env d)
      ↔ d.flashes_left = 1 := by
  constructor
  · rintro ⟨v, hv⟩
    by_cases h : d.flashes_left = 1
    · exact h
    · exfalso
      have hmem : (FWUPD_RESULT_KEY_DEVICE_FLASHES_LEFT, v)
          ∈ (fwupd_device_to_string_kvs env d).filter
              (fun p => p.1 == FWUPD_RESULT_KEY_DEVICE_FLASHES_LEFT) :=
        List.mem_filter.mpr ⟨hv, by simp⟩
      rw [to_string_kvs_filter_flashes, if_neg h] at hmem
      simp at hmem
  · intro h
    refine ⟨"1", ?_⟩
    have hmem : (FWUPD_RESULT_KEY_DEVICE_FLASHES_LEFT, "1")
        ∈ (fwupd_device_to_string_kvs env d).filter
            (fun p => p.1 == FWUPD_RESULT_KEY_DEVICE_FLASHES_LEFT) := by
      rw [to_string_kvs_filter_flashes, if_pos h]
      simp
    exact (List.mem_filter.mp hmem).1

/-- Witness for C1 at a concrete fully-populated record meeting the side
conditions. -/
theorem fwupd_device_roundtrip_witness :
    fwupd_device_set_from_variant_iter fwupd_device_new
        (fwupd_device_to_variant_builder
          { id := none, created := 5, modified := 6, flags := 3,
            appstream_id := none, guids := ["g1", "g2"], name := some "ColorHug2",
            summary := none, description := some "desc", vendor := some "Hughski",
            homepage := none, provider := some "colorhug", version := some "2.0.3",
            version_lowest := some "2.0.0", version_bootloader := some "0.4",
            checksums := ["deadbeef"], flashes_left := 2 })
      = { id := none, created := 5, modified := 6, flags := 3,
          appstream_id := none, guids := ["g1", "g2"], name := some "ColorHug2",
          summary := none, description := some "desc", vendor := some "Hughski",
          homepage := none, provider := some "colorhug", version := some "2.0.3",
          version_lowest := some "2.0.0", version_bootloader := some "0.4",
          checksums := ["deadbeef"], flashes_left := 2 } :=
  fwupd_device_roundtrip _ rfl rfl rfl rfl (by decide) (by decide) (by decide)
    (by decide) (by decide) (by decide) (by decide) (by decide) (by decide)
    (by decide) (by decide)
